import Mathlib

/-!
Verification of the libcucul attribute-management module (`attr.c`).

The canvas data model and every operation below are shallow embeddings of
the C source: machine integers become `Nat` with explicit truncations
(`% 0x10000` for `uint16_t` conversions, `% 0x100000000` for `uint32_t`),
row-major cell buffers become `List Nat`, and each fallible call returns
its C return value together with the resulting canvas and the `errno`
value written, if any.
-/

/-- Modelled from the spec: the sentinel for the media's default colour
(`CUCUL_DEFAULT` in `cucul.h`, a header not among the provided sources).
The spec places it amid the valid ANSI index range 0x00–0x20, distinct
from the 16 palette indices and from the transparent sentinel. -/
def CUCUL_DEFAULT : Nat := 0x10

/-- Modelled from the spec: the transparent-colour sentinel
(`CUCUL_TRANSPARENT` in `cucul.h`, a header not among the provided
sources); the largest accepted ANSI index, 0x20. -/
def CUCUL_TRANSPARENT : Nat := 0x20

/-- Modelled from the spec: palette index of black (`CUCUL_BLACK`),
index 0 of the ANSI palette tables. -/
def CUCUL_BLACK : Nat := 0x00

/-- Modelled from the spec: palette index of light gray
(`CUCUL_LIGHTGRAY`), index 7 of the ANSI palette tables. -/
def CUCUL_LIGHTGRAY : Nat := 0x07

/-- Modelled from the spec: the reserved code point marking the second
cell of a fullwidth pair (`CUCUL_MAGIC_FULLWIDTH` in `cucul.h`, a header
not among the provided sources). Only its distinguishability matters to
the proofs below. -/
def CUCUL_MAGIC_FULLWIDTH : Nat := 0x000ffffe

/-- Modelled from the platform's `errno.h` (not part of the repository):
the invalid-argument error code written by the failing calls. -/
def EINVAL : Nat := 22

/-- The canvas state: dimensions, row-major code-point and attribute
buffers (index `x + y * width`), and the current default attribute. -/
structure Canvas where
  width : Nat
  height : Nat
  chars : List Nat
  attrs : List Nat
  curattr : Nat
deriving DecidableEq

/-- Result of a canvas call: the C return value, the `errno` written (if
any), and the canvas after the call. -/
structure CallResult where
  ret : Int
  err : Option Nat
  cv : Canvas
deriving DecidableEq

/-- `cucul_get_attr`: out-of-bounds coordinates yield the current default
attribute, otherwise the cell's stored attribute. -/
def cucul_get_attr (cv : Canvas) (x y : Int) : Nat :=
  if x < 0 ∨ (cv.width : Int) ≤ x ∨ y < 0 ∨ (cv.height : Int) ≤ y then
    cv.curattr
  else
    cv.attrs.getD (x.toNat + y.toNat * cv.width) 0

/-- `cucul_set_attr`: set the default attribute, merging values below
0x10 onto the current default's colour bits. -/
def cucul_set_attr (cv : Canvas) (attr : Nat) : CallResult :=
  if 0xffffffff < attr then ⟨-1, some EINVAL, cv⟩
  else if attr < 0x00000010 then
    ⟨0, none, { cv with curattr := (cv.curattr &&& 0xfffffff0) ||| attr }⟩
  else
    ⟨0, none, { cv with curattr := attr }⟩

/-- `cucul_putattr`: validate the attribute, silently drop out-of-bounds
writes, then (as the source is written) merge the cell's *existing*
attribute with the default attribute's colour bits when it is below 0x10,
and finally copy the cell's attribute onto its fullwidth partner cell. -/
def cucul_putattr (cv : Canvas) (x y : Int) (attr : Nat) : CallResult :=
  if 0xffffffff < attr then ⟨-1, some EINVAL, cv⟩
  else if x < 0 ∨ (cv.width : Int) ≤ x ∨ y < 0 ∨ (cv.height : Int) ≤ y then
    ⟨0, none, cv⟩
  else
    let idx := x.toNat + y.toNat * cv.width
    let a0 := cv.attrs.getD idx 0
    let a1 := if a0 < 0x00000010 then (cv.curattr &&& 0xfffffff0) ||| a0 else a0
    let attrs1 := if a0 < 0x00000010 then cv.attrs.set idx a1 else cv.attrs
    let attrs2 :=
      if x ≠ 0 ∧ cv.chars.getD idx 0 = CUCUL_MAGIC_FULLWIDTH then
        attrs1.set (idx - 1) a1
      else if x + 1 < (cv.width : Int) ∧ cv.chars.getD (idx + 1) 0 = CUCUL_MAGIC_FULLWIDTH then
        attrs1.set (idx + 1) a1
      else attrs1
    ⟨0, none, { cv with attrs := attrs2 }⟩

/-- `cucul_set_color_ansi`: encode an ANSI colour pair into the default
attribute, preserving the style-flag bits. -/
def cucul_set_color_ansi (cv : Canvas) (fg bg : Nat) : CallResult :=
  if 0x20 < fg ∨ 0x20 < bg then ⟨-1, some EINVAL, cv⟩
  else
    ⟨0, none, { cv with curattr :=
      (cv.curattr &&& 0x0000000f) |||
        (((bg ||| 0x40) <<< 18) ||| ((fg ||| 0x40) <<< 4)) }⟩

/-- `cucul_set_color_argb`: encode a 16-bit ARGB colour pair into the
default attribute, preserving the style-flag bits. -/
def cucul_set_color_argb (cv : Canvas) (fg bg : Nat) : CallResult :=
  if 0xffff < fg ∨ 0xffff < bg then ⟨-1, some EINVAL, cv⟩
  else
    let fg1 := if fg < 0x100 then fg + 0x100 else fg
    let bg1 := if bg < 0x100 then bg + 0x100 else bg
    let fg2 := ((fg1 >>> 1) &&& 0x7ff) ||| ((fg1 >>> 13) <<< 11)
    let bg2 := ((bg1 >>> 1) &&& 0x7ff) ||| ((bg1 >>> 13) <<< 11)
    ⟨0, none, { cv with curattr :=
      (cv.curattr &&& 0x0000000f) ||| ((bg2 <<< 18) ||| (fg2 <<< 4)) }⟩

/-- The 16-entry ANSI palette in 16-bit ARGB (`ansitab16`). -/
def ansitab16 : List Nat :=
  [0xf000, 0xf00a, 0xf0a0, 0xf0aa, 0xfa00, 0xfa0a, 0xfa50, 0xfaaa,
   0xf555, 0xf55f, 0xf5f5, 0xf5ff, 0xff55, 0xff5f, 0xfff5, 0xffff]

/-- The same palette on 14 bits, 3-4-4-3 layout (`ansitab14`). -/
def ansitab14 : List Nat :=
  [0x3800, 0x3805, 0x3850, 0x3855, 0x3d00, 0x3d05, 0x3d28, 0x3d55,
   0x3aaa, 0x3aaf, 0x3afa, 0x3aff, 0x3faa, 0x3faf, 0x3ffa, 0x3fff]

/-- One squared channel difference, `(a - b) * (a - b)` computed in the
C `int` type. -/
def sqdiff (a b : Nat) : Int :=
  ((a : Int) - (b : Int)) * ((a : Int) - (b : Int))

/-- The distance accumulated by one iteration of the `nearest_ansi`
loop: squared differences over the three channels extracted by
`>> 7 & 0xf`, `>> 3 & 0xf` and `<< 1 & 0xf`. -/
def ansiDist (v i : Nat) : Int :=
  sqdiff ((ansitab14.getD i 0 >>> 7) &&& 0xf) ((v >>> 7) &&& 0xf) +
  sqdiff ((ansitab14.getD i 0 >>> 3) &&& 0xf) ((v >>> 3) &&& 0xf) +
  sqdiff ((ansitab14.getD i 0 <<< 1) &&& 0xf) ((v <<< 1) &&& 0xf)

/-- One iteration of the `nearest_ansi` search loop: replace the best
match only on strictly smaller distance. -/
def ansiStep (v : Nat) (acc : Nat × Int) (i : Nat) : Nat × Int :=
  if ansiDist v i < acc.2 then (i, ansiDist v i) else acc

/-- `nearest_ansi`: quantize a 14-bit colour-and-alpha value to an ANSI
index, special-casing raw palette values, the two sentinels, and the
too-transparent range before the nearest-neighbour scan. -/
def nearest_ansi (argb14 : Nat) : Nat :=
  if argb14 < (0x10 ||| 0x40) then argb14 ^^^ 0x40
  else if argb14 = (CUCUL_DEFAULT ||| 0x40) then argb14 ^^^ 0x40
  else if argb14 = (CUCUL_TRANSPARENT ||| 0x40) then argb14 ^^^ 0x40
  else if argb14 < 0x0fff then CUCUL_TRANSPARENT
  else ((List.range 16).foldl (ansiStep argb14) (CUCUL_DEFAULT, 0x3fff)).1

/-- `cucul_attr_to_ansi_fg`: the source casts `attr` to `uint16_t`
*before* shifting, so the argument passed to `nearest_ansi` is
`((attr % 2^16) >> 4) & 0x3fff`. -/
def cucul_attr_to_ansi_fg (attr : Nat) : Nat :=
  nearest_ansi (((attr % 0x10000) >>> 4) &&& 0x3fff)

/-- `cucul_attr_to_ansi_bg`: quantize the background field
`attr >> 18`, truncated to `uint16_t` at the call. -/
def cucul_attr_to_ansi_bg (attr : Nat) : Nat :=
  nearest_ansi ((attr >>> 18) % 0x10000)

/-- `_cucul_attr_to_argb4`: emit eight nibbles, background group first,
each group most-significant nibble first. Raw palette fields go through
`ansitab16`; the default sentinel resolves to black (background) or
light gray (foreground); the transparent sentinel becomes `0x0fff`;
anything else is up-converted truecolor. -/
def _cucul_attr_to_argb4 (attr : Nat) : List Nat :=
  let a := attr % 0x100000000
  let fg := (a >>> 4) &&& 0x3fff
  let bg := a >>> 18
  let bg2 :=
    if bg < (0x10 ||| 0x40) then ansitab16.getD (bg ^^^ 0x40) 0
    else if bg = (CUCUL_DEFAULT ||| 0x40) then ansitab16.getD CUCUL_BLACK 0
    else if bg = (CUCUL_TRANSPARENT ||| 0x40) then 0x0fff
    else ((bg <<< 2) &&& 0xf000) ||| ((bg <<< 1) &&& 0x0fff)
  let fg2 :=
    if fg < (0x10 ||| 0x40) then ansitab16.getD (fg ^^^ 0x40) 0
    else if fg = (CUCUL_DEFAULT ||| 0x40) then ansitab16.getD CUCUL_LIGHTGRAY 0
    else if fg = (CUCUL_TRANSPARENT ||| 0x40) then 0x0fff
    else ((fg <<< 2) &&& 0xf000) ||| ((fg <<< 1) &&& 0x0fff)
  [bg2 >>> 12, (bg2 >>> 8) &&& 0xf, (bg2 >>> 4) &&& 0xf, bg2 &&& 0xf,
   fg2 >>> 12, (fg2 >>> 8) &&& 0xf, (fg2 >>> 4) &&& 0xf, fg2 &&& 0xf]

/-- A 1×1 canvas whose single cell holds a space with attribute 0x20
and whose default attribute is 0x30. -/
def cvOneCellA : Canvas := ⟨1, 1, [32], [0x20], 0x30⟩

/-- C1: writing attribute 0x300 to the in-bounds cell (0,0) returns 0,
yet a subsequent read still yields the old attribute 0x20 — the source
of `cucul_putattr` never stores its `attr` argument, contradicting its
own documentation. -/
theorem c1_putattr_drops_attr :
    (cucul_putattr cvOneCellA 0 0 0x300).ret = 0 ∧
    cucul_get_attr (cucul_putattr cvOneCellA 0 0 0x300).cv 0 0 = 0x20 ∧
    (0x20 : Nat) ≠ 0x300 := by
  decide

/-- A 1×1 canvas whose single cell holds a space with attribute 0x20
and whose default attribute is 0x100. -/
def cvOneCellB : Canvas := ⟨1, 1, [32], [0x20], 0x100⟩

/-- C2 counterexample: writing the style-only attribute 5 to a cell
whose old attribute is 0x20 leaves the cell at 0x20, not at
`(0x20 & 0xfffffff0) | 5 = 0x25` as the claim states. -/
theorem c2_counterexample :
    cucul_get_attr (cucul_putattr cvOneCellB 0 0 5).cv 0 0 = 0x20 ∧
    (0x20 : Nat) ≠ (0x20 &&& 0xfffffff0) ||| 5 := by
  decide

/-- C5: every invalid-argument call — `cucul_set_attr` or `cucul_putattr`
with an attribute above 0xffffffff, `cucul_set_color_ansi` with an index
above 0x20, `cucul_set_color_argb` with a colour above 0xffff — returns
-1, writes `EINVAL` to `errno`, and leaves the canvas exactly as it was. -/
theorem c5_invalid_argument_no_mutation (cv : Canvas) (x y : Int)
    (attr fg bg cfg cbg : Nat)
    (hattr : 0xffffffff < attr) (hansi : 0x20 < fg ∨ 0x20 < bg)
    (hargb : 0xffff < cfg ∨ 0xffff < cbg) :
    cucul_set_attr cv attr = ⟨-1, some EINVAL, cv⟩ ∧
    cucul_putattr cv x y attr = ⟨-1, some EINVAL, cv⟩ ∧
    cucul_set_color_ansi cv fg bg = ⟨-1, some EINVAL, cv⟩ ∧
    cucul_set_color_argb cv cfg cbg = ⟨-1, some EINVAL, cv⟩ := by
  refine ⟨?_, ?_, ?_, ?_⟩
  · rw [cucul_set_attr, if_pos hattr]
  · rw [cucul_putattr, if_pos hattr]
  · rw [cucul_set_color_ansi, if_pos hansi]
  · rw [cucul_set_color_argb, if_pos hargb]

/-- Witness for C5 at a concrete canvas and concrete bad arguments. -/
theorem c5_invalid_argument_no_mutation_witness :
    cucul_set_attr ⟨1, 1, [32], [7], 9⟩ 0x100000000 = ⟨-1, some EINVAL, ⟨1, 1, [32], [7], 9⟩⟩ ∧
    cucul_putattr ⟨1, 1, [32], [7], 9⟩ 0 0 0x100000000 = ⟨-1, some EINVAL, ⟨1, 1, [32], [7], 9⟩⟩ ∧
    cucul_set_color_ansi ⟨1, 1, [32], [7], 9⟩ 0x21 0 = ⟨-1, some EINVAL, ⟨1, 1, [32], [7], 9⟩⟩ ∧
    cucul_set_color_argb ⟨1, 1, [32], [7], 9⟩ 0 0x10000 = ⟨-1, some EINVAL, ⟨1, 1, [32], [7], 9⟩⟩ :=
  c5_invalid_argument_no_mutation ⟨1, 1, [32], [7], 9⟩ 0 0 0x100000000 0x21 0 0 0x10000
    (by decide) (Or.inl (by decide)) (Or.inr (by decide))

/-- C6: out-of-bounds coordinates are never an error: `cucul_get_attr`
falls back to the current default attribute, and `cucul_putattr` with any
32-bit attribute returns 0 with the canvas (cells, characters and default
attribute) entirely untouched. -/
theorem c6_out_of_bounds_silent (cv : Canvas) (x y : Int) (attr : Nat)
    (hoob : x < 0 ∨ (cv.width : Int) ≤ x ∨ y < 0 ∨ (cv.height : Int) ≤ y)
    (hattr : attr < 0x100000000) :
    cucul_get_attr cv x y = cv.curattr ∧
    cucul_putattr cv x y attr = ⟨0, none, cv⟩ := by
  constructor
  · rw [cucul_get_attr, if_pos hoob]
  · rw [cucul_putattr, if_neg (by omega), if_pos hoob]

/-- Witness for C6: reading and writing at (-1, 5) on a concrete 2×1
canvas. -/
theorem c6_out_of_bounds_silent_witness :
    cucul_get_attr ⟨2, 1, [32, 33], [4, 5], 11⟩ (-1) 5 = 11 ∧
    cucul_putattr ⟨2, 1, [32, 33], [4, 5], 11⟩ (-1) 5 0xffffffff =
      ⟨0, none, ⟨2, 1, [32, 33], [4, 5], 11⟩⟩ :=
  c6_out_of_bounds_silent ⟨2, 1, [32, 33], [4, 5], 11⟩ (-1) 5 0xffffffff
    (Or.inl (by decide)) (by decide)

/-- Row-major cell indices stay inside a buffer of `w * h` cells. -/
lemma index_lt_of_lt {i j w h L : Nat} (hL : L = w * h) (hi : i < w) (hj : j < h) :
    i + j * w < L := by
  rw [hL]
  calc i + j * w < w + j * w := Nat.add_lt_add_right hi _
    _ = (j + 1) * w := by ring
    _ ≤ h * w := Nat.mul_le_mul_right _ hj
    _ = w * h := Nat.mul_comm _ _

/-- In-bounds, valid-attribute `cucul_putattr` reduced to its mutation
branch. -/
lemma putattr_inbounds_eq (cv : Canvas) (x y : Int) (attr : Nat)
    (hattr : attr < 0x100000000)
    (hx0 : 0 ≤ x) (hx : x < (cv.width : Int)) (hy0 : 0 ≤ y) (hy : y < (cv.height : Int)) :
    cucul_putattr cv x y attr =
      ⟨0, none, { cv with attrs :=
        (let idx := x.toNat + y.toNat * cv.width
         let a0 := cv.attrs.getD idx 0
         let a1 := if a0 < 0x00000010 then (cv.curattr &&& 0xfffffff0) ||| a0 else a0
         let attrs1 := if a0 < 0x00000010 then cv.attrs.set idx a1 else cv.attrs
         if x ≠ 0 ∧ cv.chars.getD idx 0 = CUCUL_MAGIC_FULLWIDTH then
           attrs1.set (idx - 1) a1
         else if x + 1 < (cv.width : Int) ∧ cv.chars.getD (idx + 1) 0 = CUCUL_MAGIC_FULLWIDTH then
           attrs1.set (idx + 1) a1
         else attrs1) }⟩ := by
  rw [cucul_putattr, if_neg (by omega), if_neg (by omega)]

/-- Reading a just-written list position. -/
lemma getD_set_self {l : List Nat} {i : Nat} {a : Nat} (h : i < l.length) :
    (l.set i a).getD i 0 = a := by
  simp [List.getD_eq_getElem?_getD, List.getElem?_set_self h]

/-- Reading a different position than the one written. -/
lemma getD_set_other {l : List Nat} {i j : Nat} {a : Nat} (h : i ≠ j) :
    (l.set i a).getD j 0 = l.getD j 0 := by
  simp [List.getD_eq_getElem?_getD, List.getElem?_set_ne h]

/-- C2 (amended): for in-bounds coordinates and a style-only value
`a < 0x10`, `cucul_putattr` returns 0 and the cell afterwards holds
`(default_attr & 0xfffffff0) | old_attr` when its old attribute was
below 0x10, and its old attribute unchanged otherwise — the argument `a`
itself never reaches the cell: the call's result is identical for any
other valid attribute argument. -/
theorem c2_amended_putattr_merges_default_ignoring_arg (cv : Canvas) (x y : Int) (a a' : Nat)
    (hlen : cv.attrs.length = cv.width * cv.height)
    (hx0 : 0 ≤ x) (hx : x < (cv.width : Int)) (hy0 : 0 ≤ y) (hy : y < (cv.height : Int))
    (ha : a < 0x10) (ha' : a' < 0x100000000) :
    (cucul_putattr cv x y a).ret = 0 ∧
    cucul_get_attr (cucul_putattr cv x y a).cv x y =
      (if cv.attrs.getD (x.toNat + y.toNat * cv.width) 0 < 0x10 then
        (cv.curattr &&& 0xfffffff0) ||| cv.attrs.getD (x.toNat + y.toNat * cv.width) 0
       else cv.attrs.getD (x.toNat + y.toNat * cv.width) 0) ∧
    cucul_putattr cv x y a = cucul_putattr cv x y a' := by
  have hget : ∀ A : List Nat, cucul_get_attr { cv with attrs := A } x y =
      if x < 0 ∨ (cv.width : Int) ≤ x ∨ y < 0 ∨ (cv.height : Int) ≤ y then cv.curattr
      else A.getD (x.toNat + y.toNat * cv.width) 0 := fun A => rfl
  have hput := putattr_inbounds_eq cv x y a (by omega) hx0 hx hy0 hy
  have hput' := putattr_inbounds_eq cv x y a' ha' hx0 hx hy0 hy
  refine ⟨by rw [hput], ?_, by rw [hput, hput']⟩
  rw [hput]
  show cucul_get_attr _ x y = _
  rw [hget, if_neg (by omega)]
  have hidx : x.toNat + y.toNat * cv.width < cv.attrs.length :=
    index_lt_of_lt hlen (by omega) (by omega)
  set idx := x.toNat + y.toNat * cv.width with hidxdef
  set a0 := cv.attrs.getD idx 0 with ha0def
  set a1 := if a0 < 0x00000010 then (cv.curattr &&& 0xfffffff0) ||| a0 else a0 with ha1def
  set attrs1 := if a0 < 0x00000010 then cv.attrs.set idx a1 else cv.attrs with hattrs1def
  have h1 : attrs1.getD idx 0 = a1 := by
    rw [hattrs1def, ha1def]
    by_cases h0 : a0 < 0x00000010
    · rw [if_pos h0, if_pos h0, getD_set_self hidx]
    · rw [if_neg h0, if_neg h0]
  show (if x ≠ 0 ∧ cv.chars.getD idx 0 = CUCUL_MAGIC_FULLWIDTH then
          attrs1.set (idx - 1) a1
        else if x + 1 < (cv.width : Int) ∧ cv.chars.getD (idx + 1) 0 = CUCUL_MAGIC_FULLWIDTH then
          attrs1.set (idx + 1) a1
        else attrs1).getD idx 0 = a1
  split_ifs with hm1 hm2
  · have hne : idx - 1 ≠ idx := by
      have : x.toNat ≠ 0 := by omega
      omega
    rw [getD_set_other hne, h1]
  · rw [getD_set_other (by omega), h1]
  · exact h1

/-- A 2×1 canvas with distinct cell attributes used as the C2 witness. -/
def cvTwoCells : Canvas := ⟨2, 1, [32, 32], [0x8, 0x25], 0xabc0⟩

/-- Witness for the amended C2 at a concrete canvas: the old cell
attribute 0x8 is merged with the default attribute's colour bits, and
passing 5 or 7 makes no difference. -/
theorem c2_amended_putattr_merges_default_ignoring_arg_witness :
    (cucul_putattr cvTwoCells 0 0 5).ret = 0 ∧
    cucul_get_attr (cucul_putattr cvTwoCells 0 0 5).cv 0 0 =
      (if cvTwoCells.attrs.getD ((0 : Int).toNat + (0 : Int).toNat * cvTwoCells.width) 0 < 0x10 then
        (cvTwoCells.curattr &&& 0xfffffff0) |||
          cvTwoCells.attrs.getD ((0 : Int).toNat + (0 : Int).toNat * cvTwoCells.width) 0
       else cvTwoCells.attrs.getD ((0 : Int).toNat + (0 : Int).toNat * cvTwoCells.width) 0) ∧
    cucul_putattr cvTwoCells 0 0 5 = cucul_putattr cvTwoCells 0 0 7 :=
  c2_amended_putattr_merges_default_ignoring_arg cvTwoCells 0 0 5 7
    (by decide) (by decide) (by decide) (by decide) (by decide) (by decide) (by decide)

/-- C9: after a successful in-bounds `cucul_putattr` on a canvas whose
fullwidth markers are well formed (the target cell and its right
neighbour are not both continuation markers, as two adjacent markers
cannot both be the tail of a pair), both halves of a fullwidth pair
carry identical attributes: if the target cell is a continuation marker
its left neighbour's attribute equals its own, and if the next cell is a
continuation marker that cell's attribute equals the target's. -/
theorem c9_fullwidth_pair_attrs_equal (cv : Canvas) (x y : Int) (attr : Nat)
    (hlen : cv.attrs.length = cv.width * cv.height)
    (hx0 : 0 ≤ x) (hx : x < (cv.width : Int)) (hy0 : 0 ≤ y) (hy : y < (cv.height : Int))
    (hattr : attr < 0x100000000)
    (hwf : ¬(cv.chars.getD (x.toNat + y.toNat * cv.width) 0 = CUCUL_MAGIC_FULLWIDTH ∧
             cv.chars.getD (x.toNat + y.toNat * cv.width + 1) 0 = CUCUL_MAGIC_FULLWIDTH)) :
    (cucul_putattr cv x y attr).ret = 0 ∧
    ((x ≠ 0 ∧ cv.chars.getD (x.toNat + y.toNat * cv.width) 0 = CUCUL_MAGIC_FULLWIDTH) →
      (cucul_putattr cv x y attr).cv.attrs.getD (x.toNat + y.toNat * cv.width - 1) 0 =
        (cucul_putattr cv x y attr).cv.attrs.getD (x.toNat + y.toNat * cv.width) 0) ∧
    ((x + 1 < (cv.width : Int) ∧
        cv.chars.getD (x.toNat + y.toNat * cv.width + 1) 0 = CUCUL_MAGIC_FULLWIDTH) →
      (cucul_putattr cv x y attr).cv.attrs.getD (x.toNat + y.toNat * cv.width + 1) 0 =
        (cucul_putattr cv x y attr).cv.attrs.getD (x.toNat + y.toNat * cv.width) 0) := by
  have hput := putattr_inbounds_eq cv x y attr hattr hx0 hx hy0 hy
  have hidx : x.toNat + y.toNat * cv.width < cv.attrs.length :=
    index_lt_of_lt hlen (by omega) (by omega)
  rw [hput]
  set idx := x.toNat + y.toNat * cv.width with hidxdef
  set a0 := cv.attrs.getD idx 0 with ha0def
  set a1 := if a0 < 0x00000010 then (cv.curattr &&& 0xfffffff0) ||| a0 else a0 with ha1def
  set attrs1 := if a0 < 0x00000010 then cv.attrs.set idx a1 else cv.attrs with hattrs1def
  have hlen1 : attrs1.length = cv.attrs.length := by
    rw [hattrs1def]; split_ifs <;> simp
  have h1 : attrs1.getD idx 0 = a1 := by
    rw [hattrs1def, ha1def]
    by_cases h0 : a0 < 0x00000010
    · rw [if_pos h0, if_pos h0, getD_set_self hidx]
    · rw [if_neg h0, if_neg h0]
  refine ⟨rfl, ?_, ?_⟩
  · rintro ⟨hxne, hmark⟩
    have hcond : (x ≠ 0 ∧ cv.chars.getD idx 0 = CUCUL_MAGIC_FULLWIDTH) := ⟨hxne, hmark⟩
    show (if x ≠ 0 ∧ cv.chars.getD idx 0 = CUCUL_MAGIC_FULLWIDTH then
            attrs1.set (idx - 1) a1
          else if x + 1 < (cv.width : Int) ∧
              cv.chars.getD (idx + 1) 0 = CUCUL_MAGIC_FULLWIDTH then
            attrs1.set (idx + 1) a1
          else attrs1).getD (idx - 1) 0 =
        (if x ≠ 0 ∧ cv.chars.getD idx 0 = CUCUL_MAGIC_FULLWIDTH then
            attrs1.set (idx - 1) a1
          else if x + 1 < (cv.width : Int) ∧
              cv.chars.getD (idx + 1) 0 = CUCUL_MAGIC_FULLWIDTH then
            attrs1.set (idx + 1) a1
          else attrs1).getD idx 0
    rw [if_pos hcond]
    have hne : idx - 1 ≠ idx := by
      have : x.toNat ≠ 0 := by omega
      omega
    have hlt : idx - 1 < attrs1.length := by omega
    rw [getD_set_self hlt, getD_set_other hne, h1]
  · rintro ⟨hxlt, hmark2⟩
    have hcond1 : ¬(x ≠ 0 ∧ cv.chars.getD idx 0 = CUCUL_MAGIC_FULLWIDTH) := by
      rintro ⟨hxne, hmark⟩
      exact hwf ⟨hmark, hmark2⟩
    have hcond2 : (x + 1 < (cv.width : Int) ∧
        cv.chars.getD (idx + 1) 0 = CUCUL_MAGIC_FULLWIDTH) := ⟨hxlt, hmark2⟩
    show (if x ≠ 0 ∧ cv.chars.getD idx 0 = CUCUL_MAGIC_FULLWIDTH then
            attrs1.set (idx - 1) a1
          else if x + 1 < (cv.width : Int) ∧
              cv.chars.getD (idx + 1) 0 = CUCUL_MAGIC_FULLWIDTH then
            attrs1.set (idx + 1) a1
          else attrs1).getD (idx + 1) 0 =
        (if x ≠ 0 ∧ cv.chars.getD idx 0 = CUCUL_MAGIC_FULLWIDTH then
            attrs1.set (idx - 1) a1
          else if x + 1 < (cv.width : Int) ∧
              cv.chars.getD (idx + 1) 0 = CUCUL_MAGIC_FULLWIDTH then
            attrs1.set (idx + 1) a1
          else attrs1).getD idx 0
    rw [if_neg hcond1, if_pos hcond2]
    have hne : idx + 1 ≠ idx := by omega
    have hlt : idx + 1 < attrs1.length := by
      rw [hlen1]
      have : x.toNat + 1 + y.toNat * cv.width < cv.attrs.length :=
        index_lt_of_lt hlen (by omega) (by omega)
      omega
    rw [getD_set_self hlt, getD_set_other hne, h1]

/-- A 3×1 canvas holding a fullwidth glyph in cell 0 and its
continuation marker in cell 1, with differing attributes, used as the
C9 witness. -/
def cvFullwidth : Canvas := ⟨3, 1, [0x4e2d, CUCUL_MAGIC_FULLWIDTH, 32], [1, 2, 3], 0x500⟩

/-- Witness for C9: writing an attribute onto the continuation cell
(1,0) of a concrete fullwidth pair equalizes the pair's attributes. -/
theorem c9_fullwidth_pair_attrs_equal_witness :
    (cucul_putattr cvFullwidth 1 0 0x123).ret = 0 ∧
    ((1 : Int) ≠ 0 ∧ cvFullwidth.chars.getD ((1 : Int).toNat + (0 : Int).toNat * cvFullwidth.width) 0 =
        CUCUL_MAGIC_FULLWIDTH →
      (cucul_putattr cvFullwidth 1 0 0x123).cv.attrs.getD
          ((1 : Int).toNat + (0 : Int).toNat * cvFullwidth.width - 1) 0 =
        (cucul_putattr cvFullwidth 1 0 0x123).cv.attrs.getD
          ((1 : Int).toNat + (0 : Int).toNat * cvFullwidth.width) 0) ∧
    ((1 : Int) + 1 < (cvFullwidth.width : Int) ∧
        cvFullwidth.chars.getD ((1 : Int).toNat + (0 : Int).toNat * cvFullwidth.width + 1) 0 =
          CUCUL_MAGIC_FULLWIDTH →
      (cucul_putattr cvFullwidth 1 0 0x123).cv.attrs.getD
          ((1 : Int).toNat + (0 : Int).toNat * cvFullwidth.width + 1) 0 =
        (cucul_putattr cvFullwidth 1 0 0x123).cv.attrs.getD
          ((1 : Int).toNat + (0 : Int).toNat * cvFullwidth.width) 0) :=
  c9_fullwidth_pair_attrs_equal cvFullwidth 1 0 0x123
    (by decide) (by decide) (by decide) (by decide) (by decide) (by decide) (by decide)

set_option maxHeartbeats 1000000 in
/-- Exhaustive kernel check of the ANSI colour round-trip over every
style-flag nibble and every in-range index pair: outside the collapsing
band 0x11–0x1f, encoding then decoding returns the original pair. -/
lemma ansi_roundtrip_decide : ∀ f < 16, ∀ fg < 33, ∀ bg < 33,
    (0x10 < fg ∧ fg < 0x20) ∨ (0x10 < bg ∧ bg < 0x20) ∨
    (cucul_attr_to_ansi_fg (f ||| (((bg ||| 0x40) <<< 18) ||| ((fg ||| 0x40) <<< 4))) = fg ∧
     cucul_attr_to_ansi_bg (f ||| (((bg ||| 0x40) <<< 18) ||| ((fg ||| 0x40) <<< 4))) = bg) := by
  decide

/-- C3: after a successful `cucul_set_color_ansi fg bg` (indices at most
0x20, excluding those in the band 0x11–0x1f collapsed by the
too-transparent threshold), converting the current attribute back with
`cucul_attr_to_ansi_fg` and `cucul_attr_to_ansi_bg` returns exactly
`(fg, bg)`, whatever the canvas's prior attribute was. -/
theorem c3_ansi_color_roundtrip (cv : Canvas) (fg bg : Nat)
    (hfg : fg ≤ 0x20) (hbg : bg ≤ 0x20)
    (hfgc : ¬(0x10 < fg ∧ fg < 0x20)) (hbgc : ¬(0x10 < bg ∧ bg < 0x20)) :
    (cucul_set_color_ansi cv fg bg).ret = 0 ∧
    cucul_attr_to_ansi_fg (cucul_set_color_ansi cv fg bg).cv.curattr = fg ∧
    cucul_attr_to_ansi_bg (cucul_set_color_ansi cv fg bg).cv.curattr = bg := by
  have hres : cucul_set_color_ansi cv fg bg = ⟨0, none, { cv with curattr :=
      (cv.curattr &&& 0x0000000f) |||
        (((bg ||| 0x40) <<< 18) ||| ((fg ||| 0x40) <<< 4)) }⟩ := by
    rw [cucul_set_color_ansi, if_neg (by omega)]
  rw [hres]
  have hf : cv.curattr &&& 0x0000000f < 16 := by
    have := Nat.and_lt_two_pow cv.curattr (show (0x0000000f : Nat) < 2 ^ 4 by norm_num)
    simpa using this
  have hdec := ansi_roundtrip_decide (cv.curattr &&& 0x0000000f) hf fg (by omega) bg (by omega)
  rcases hdec with h | h | h
  · exact absurd h hfgc
  · exact absurd h hbgc
  · exact ⟨rfl, h.1, h.2⟩

/-- Witness for C3 at the spec's concrete scenario: fg = 0x09,
bg = 0x01 round-trips to exactly (0x09, 0x01). -/
theorem c3_ansi_color_roundtrip_witness :
    (cucul_set_color_ansi ⟨1, 1, [32], [0], 0xd⟩ 0x09 0x01).ret = 0 ∧
    cucul_attr_to_ansi_fg (cucul_set_color_ansi ⟨1, 1, [32], [0], 0xd⟩ 0x09 0x01).cv.curattr = 0x09 ∧
    cucul_attr_to_ansi_bg (cucul_set_color_ansi ⟨1, 1, [32], [0], 0xd⟩ 0x09 0x01).cv.curattr = 0x01 :=
  c3_ansi_color_roundtrip ⟨1, 1, [32], [0], 0xd⟩ 0x09 0x01
    (by decide) (by decide) (by decide) (by decide)

/-- A squared 4-bit channel difference never exceeds 225. -/
lemma sqdiff_le (a b : Nat) (ha : a < 16) (hb : b < 16) : sqdiff a b ≤ 225 := by
  rw [sqdiff]
  have key : (0 : Int) ≤ (15 - ((a : Int) - (b : Int))) * (15 + ((a : Int) - (b : Int))) :=
    mul_nonneg (by omega) (by omega)
  nlinarith [key]

/-- Any channel value extracted with `&&& 0xf` is below 16. -/
lemma and_fifteen_lt (x : Nat) : x &&& 0xf < 16 := by
  have := Nat.and_lt_two_pow x (show (0xf : Nat) < 2 ^ 4 by norm_num)
  simpa using this

/-- The three-channel distance is always beaten by the loop's initial
value 0x3fff. -/
lemma ansiDist_lt_init (v i : Nat) : ansiDist v i < 0x3fff := by
  rw [ansiDist]
  have h1 := sqdiff_le ((ansitab14.getD i 0 >>> 7) &&& 0xf) ((v >>> 7) &&& 0xf)
    (and_fifteen_lt _) (and_fifteen_lt _)
  have h2 := sqdiff_le ((ansitab14.getD i 0 >>> 3) &&& 0xf) ((v >>> 3) &&& 0xf)
    (and_fifteen_lt _) (and_fifteen_lt _)
  have h3 := sqdiff_le ((ansitab14.getD i 0 <<< 1) &&& 0xf) ((v <<< 1) &&& 0xf)
    (and_fifteen_lt _) (and_fifteen_lt _)
  omega

/-- Invariant of the `nearest_ansi` scan: after visiting indices
`0..n-1` the accumulator holds the first index attaining the minimum
distance among them, together with that distance. -/
lemma ansiLoop_spec (v : Nat) : ∀ n, 1 ≤ n →
    ((List.range n).foldl (ansiStep v) (CUCUL_DEFAULT, 0x3fff)).1 < n ∧
    ((List.range n).foldl (ansiStep v) (CUCUL_DEFAULT, 0x3fff)).2 =
      ansiDist v ((List.range n).foldl (ansiStep v) (CUCUL_DEFAULT, 0x3fff)).1 ∧
    (∀ j < n, ((List.range n).foldl (ansiStep v) (CUCUL_DEFAULT, 0x3fff)).2 ≤ ansiDist v j) ∧
    (∀ j < ((List.range n).foldl (ansiStep v) (CUCUL_DEFAULT, 0x3fff)).1,
      ((List.range n).foldl (ansiStep v) (CUCUL_DEFAULT, 0x3fff)).2 < ansiDist v j) := by
  intro n hn
  induction n with
  | zero => omega
  | succ m ih =>
    by_cases hm : m = 0
    · subst hm
      have hres : (List.range 1).foldl (ansiStep v) (CUCUL_DEFAULT, 0x3fff) =
          (0, ansiDist v 0) := by
        have h0 := ansiDist_lt_init v 0
        simp [List.range_succ, ansiStep, if_pos h0]
      rw [hres]
      refine ⟨by omega, rfl, ?_, by omega⟩
      intro j hj
      interval_cases j
      exact le_refl _
    · have hm1 : 1 ≤ m := by omega
      obtain ⟨ihb, ihd, ihmin, ihtie⟩ := ih hm1
      rw [List.range_succ, List.foldl_append, List.foldl_cons, List.foldl_nil]
      set p := (List.range m).foldl (ansiStep v) (CUCUL_DEFAULT, 0x3fff) with hp
      rw [ansiStep]
      by_cases hlt : ansiDist v m < p.2
      · rw [if_pos hlt]
        refine ⟨by omega, rfl, ?_, ?_⟩
        · intro j hj
          rcases Nat.lt_succ_iff_lt_or_eq.mp hj with hj' | hj'
          · exact le_of_lt (lt_of_lt_of_le hlt (ihmin j hj'))
          · subst hj'; exact le_refl _
        · intro j hj
          exact lt_of_lt_of_le hlt (ihmin j (by omega))
      · rw [if_neg hlt]
        refine ⟨by omega, ihd, ?_, ihtie⟩
        intro j hj
        rcases Nat.lt_succ_iff_lt_or_eq.mp hj with hj' | hj'
        · exact ihmin j hj'
        · subst hj'; exact le_of_not_lt hlt

/-- C4: for every 14-bit input to `nearest_ansi` that is not a raw
palette value, not a sentinel, and not below the too-transparent
threshold, the result is the lowest index among 0..15 minimizing the
three-channel squared distance to `ansitab14`; and any such input below
the threshold 0x0fff yields the transparent sentinel. -/
theorem c4_nearest_ansi_minimizes (v : Nat) (_h14 : v < 0x4000)
    (hraw : ¬ v < 0x50) (hdef : v ≠ 0x50) (htrans : v ≠ 0x60) :
    (¬ v < 0x0fff →
      nearest_ansi v < 16 ∧
      (∀ j < 16, ansiDist v (nearest_ansi v) ≤ ansiDist v j) ∧
      (∀ j < nearest_ansi v, ansiDist v (nearest_ansi v) < ansiDist v j)) ∧
    (v < 0x0fff → nearest_ansi v = CUCUL_TRANSPARENT) := by
  have hne : nearest_ansi v = if v < 0x0fff then CUCUL_TRANSPARENT
      else ((List.range 16).foldl (ansiStep v) (CUCUL_DEFAULT, 0x3fff)).1 := by
    rw [nearest_ansi, if_neg (show ¬ v < (0x10 ||| 0x40) from hraw),
      if_neg (show v ≠ (CUCUL_DEFAULT ||| 0x40) from hdef),
      if_neg (show v ≠ (CUCUL_TRANSPARENT ||| 0x40) from htrans)]
  constructor
  · intro hge
    rw [hne, if_neg hge]
    obtain ⟨hb, hd, hmin, htie⟩ := ansiLoop_spec v 16 (by omega)
    exact ⟨hb, fun j hj => hd ▸ hmin j hj, fun j hj => hd ▸ htie j hj⟩
  · intro hlt
    rw [hne, if_pos hlt]

/-- Witness for C4 at v = 0x1000 (above the threshold) and v = 0x100
(below it). -/
theorem c4_nearest_ansi_minimizes_witness :
    (¬ (0x1000 : Nat) < 0x0fff →
      nearest_ansi 0x1000 < 16 ∧
      (∀ j < 16, ansiDist 0x1000 (nearest_ansi 0x1000) ≤ ansiDist 0x1000 j) ∧
      (∀ j < nearest_ansi 0x1000, ansiDist 0x1000 (nearest_ansi 0x1000) < ansiDist 0x1000 j)) ∧
    ((0x1000 : Nat) < 0x0fff → nearest_ansi 0x1000 = CUCUL_TRANSPARENT) :=
  c4_nearest_ansi_minimizes 0x1000 (by decide) (by decide) (by decide) (by decide)

/-- C7: the foreground quantizer truncates its input to 16 bits before
shifting, so at attr = 0x10000 (bit 16 set, a legal 32-bit attribute) it
returns 0x40 — the raw passthrough of field 0 — whereas quantizing the
full 14-bit field (attr >> 4) & 0x3fff = 0x1000 yields palette index 0.
The `(uint16_t)attr` cast drops bits 16–17 of the documented field, a
slip the sibling `_cucul_attr_to_ansi8` does not make. -/
theorem c7_fg_quantizer_truncates_field :
    cucul_attr_to_ansi_fg 0x10000 = 0x40 ∧
    nearest_ansi ((0x10000 >>> 4) &&& 0x3fff) = 0 ∧
    (0x40 : Nat) ≠ 0 := by
  decide

/-- Fields `&&& 0xf` are the value modulo 16. -/
lemma and_0xf (x : Nat) : x &&& 0xf = x % 16 := by
  have := Nat.and_pow_two_sub_one_eq_mod x 4
  norm_num at this
  exact this

/-- Fields `&&& 0x3fff` are the value modulo 2^14. -/
lemma and_0x3fff (x : Nat) : x &&& 0x3fff = x % 16384 := by
  have := Nat.and_pow_two_sub_one_eq_mod x 14
  norm_num at this
  exact this

/-- Under the 16-bit truncation bug, a foreground field below 0x40 is
still extracted intact: its value only occupies the low 12 bits. -/
lemma fg_field_low (attr : Nat) (h : (attr >>> 4) &&& 0x3fff < 0x40) :
    ((attr % 0x10000) >>> 4) &&& 0x3fff = (attr >>> 4) &&& 0x3fff := by
  rw [and_0x3fff, and_0x3fff, Nat.shiftRight_eq_div_pow, Nat.shiftRight_eq_div_pow] at *
  norm_num at *
  omega

/-- Values below 0x40 have bit 6 clear, so xor-ing and or-ing 0x40
agree and land in 0x40..0x7f. -/
lemma xor_or_0x40 : ∀ f < 0x40,
    f ^^^ 0x40 = f ||| 0x40 ∧ 0x40 ≤ f ||| 0x40 ∧ f ||| 0x40 ≤ 0x7f := by
  decide

/-- C10 counterexample: at attr = 0x100 the foreground field is
0x10 < 0x40, and the converter returns 0x50, which is not in the range
0x40..0x4f stated by the claim. -/
theorem c10_counterexample :
    ((0x100 : Nat) >>> 4) &&& 0x3fff < 0x40 ∧
    cucul_attr_to_ansi_fg 0x100 = 0x50 ∧
    ¬ (0x50 : Nat) ≤ 0x4f := by
  decide

/-- C10 (amended): a foreground or background field lacking the fixed
0x40 palette offset is returned with bit 6 set (`field | 0x40`), a value
in 0x40..0x7f that is above both sentinels and every palette index. -/
theorem c10_amended_raw_field_passthrough (attr : Nat) (_h32 : attr < 0x100000000) :
    (((attr >>> 4) &&& 0x3fff) < 0x40 →
      cucul_attr_to_ansi_fg attr = ((attr >>> 4) &&& 0x3fff) ||| 0x40 ∧
      0x40 ≤ cucul_attr_to_ansi_fg attr ∧ cucul_attr_to_ansi_fg attr ≤ 0x7f ∧
      CUCUL_TRANSPARENT < cucul_attr_to_ansi_fg attr) ∧
    ((attr >>> 18) < 0x40 →
      cucul_attr_to_ansi_bg attr = (attr >>> 18) ||| 0x40 ∧
      0x40 ≤ cucul_attr_to_ansi_bg attr ∧ cucul_attr_to_ansi_bg attr ≤ 0x7f ∧
      CUCUL_TRANSPARENT < cucul_attr_to_ansi_bg attr) := by
  have h50 : ((0x10 : Nat) ||| 0x40) = 0x50 := rfl
  constructor
  · intro hfld
    have hfix := fg_field_low attr hfld
    have hxo := xor_or_0x40 ((attr >>> 4) &&& 0x3fff) hfld
    rw [cucul_attr_to_ansi_fg, hfix, nearest_ansi, if_pos (by omega)]
    rw [CUCUL_TRANSPARENT]
    exact ⟨hxo.1, by omega, by omega, by omega⟩
  · intro hfld
    have hmod : (attr >>> 18) % 0x10000 = attr >>> 18 := by
      rw [Nat.shiftRight_eq_div_pow] at *
      norm_num at *
      omega
    have hxo := xor_or_0x40 (attr >>> 18) hfld
    rw [cucul_attr_to_ansi_bg, hmod, nearest_ansi, if_pos (by omega)]
    rw [CUCUL_TRANSPARENT]
    exact ⟨hxo.1, by omega, by omega, by omega⟩

/-- Witness for the amended C10 at attr = 0x100: foreground field 0x10
maps to 0x50, background field 0 maps to 0x40. -/
theorem c10_amended_raw_field_passthrough_witness :
    (((0x100 : Nat) >>> 4) &&& 0x3fff < 0x40 →
      cucul_attr_to_ansi_fg 0x100 = (((0x100 : Nat) >>> 4) &&& 0x3fff) ||| 0x40 ∧
      0x40 ≤ cucul_attr_to_ansi_fg 0x100 ∧ cucul_attr_to_ansi_fg 0x100 ≤ 0x7f ∧
      CUCUL_TRANSPARENT < cucul_attr_to_ansi_fg 0x100) ∧
    (((0x100 : Nat) >>> 18) < 0x40 →
      cucul_attr_to_ansi_bg 0x100 = ((0x100 : Nat) >>> 18) ||| 0x40 ∧
      0x40 ≤ cucul_attr_to_ansi_bg 0x100 ∧ cucul_attr_to_ansi_bg 0x100 ≤ 0x7f ∧
      CUCUL_TRANSPARENT < cucul_attr_to_ansi_bg 0x100) :=
  c10_amended_raw_field_passthrough 0x100 (by decide)

/-- Modelled from the spec: the claimed variant of the ARGB4 conversion
in which the default *and transparent* sentinels resolve exactly as in
the rgb12/24 path — foreground to light gray, background to black via
`ansitab16` — rather than the transparent sentinel becoming 0x0fff. -/
def spec_attr_to_argb4 (attr : Nat) : List Nat :=
  let a := attr % 0x100000000
  let fg := (a >>> 4) &&& 0x3fff
  let bg := a >>> 18
  let bg2 :=
    if bg < (0x10 ||| 0x40) then ansitab16.getD (bg ^^^ 0x40) 0
    else if bg = (CUCUL_DEFAULT ||| 0x40) then ansitab16.getD CUCUL_BLACK 0
    else if bg = (CUCUL_TRANSPARENT ||| 0x40) then ansitab16.getD CUCUL_BLACK 0
    else ((bg <<< 2) &&& 0xf000) ||| ((bg <<< 1) &&& 0x0fff)
  let fg2 :=
    if fg < (0x10 ||| 0x40) then ansitab16.getD (fg ^^^ 0x40) 0
    else if fg = (CUCUL_DEFAULT ||| 0x40) then ansitab16.getD CUCUL_LIGHTGRAY 0
    else if fg = (CUCUL_TRANSPARENT ||| 0x40) then ansitab16.getD CUCUL_LIGHTGRAY 0
    else ((fg <<< 2) &&& 0xf000) ||| ((fg <<< 1) &&& 0x0fff)
  [bg2 >>> 12, (bg2 >>> 8) &&& 0xf, (bg2 >>> 4) &&& 0xf, bg2 &&& 0xf,
   fg2 >>> 12, (fg2 >>> 8) &&& 0xf, (fg2 >>> 4) &&& 0xf, fg2 &&& 0xf]

/-- C8 counterexample: at attr = 0x1000600 (background = raw black,
foreground = transparent sentinel) the source emits the foreground group
0,f,f,f (alpha 0) while the claimed rgb12/24-style sentinel resolution
would emit light gray f,a,a,a. -/
theorem c8_counterexample :
    _cucul_attr_to_argb4 0x1000600 ≠ spec_attr_to_argb4 0x1000600 ∧
    _cucul_attr_to_argb4 0x1000600 = [0xf, 0, 0, 0, 0x0, 0xf, 0xf, 0xf] ∧
    spec_attr_to_argb4 0x1000600 = [0xf, 0, 0, 0, 0xf, 0xa, 0xa, 0xa] := by
  decide

/-- Raw palette fields carry bit 6, so xor-ing 0x40 is subtraction. -/
lemma xor_sub_0x40 : ∀ b < 0x50, b < 0x40 ∨ b ^^^ 0x40 = b - 0x40 := by
  decide

/-- Every `ansitab16` lookup is a 16-bit value. -/
lemma ansitab16_getD_lt (k : Nat) : ansitab16.getD k 0 < 0x10000 := by
  by_cases h : k < 16
  · interval_cases k <;> decide
  · have hlen : ansitab16.length = 16 := rfl
    rw [List.getD_eq_getElem?_getD, List.getElem?_eq_none (by rw [hlen]; omega)]
    decide

/-- A 16-bit value is recovered from its four nibbles, most significant
first, and each nibble is below 16. -/
lemma nibble_decomp (B : Nat) (hB : B < 0x10000) :
    (B >>> 12) * 4096 + ((B >>> 8) &&& 0xf) * 256 + ((B >>> 4) &&& 0xf) * 16 + (B &&& 0xf) = B ∧
    B >>> 12 < 16 ∧ (B >>> 8) &&& 0xf < 16 ∧ (B >>> 4) &&& 0xf < 16 ∧ B &&& 0xf < 16 := by
  simp only [and_0xf, Nat.shiftRight_eq_div_pow]
  norm_num
  omega

/-- Case analysis of one resolved colour group of `_cucul_attr_to_argb4`:
given the field's value class, the group value is the palette entry, the
sentinel resolution, 0x0fff, or the up-converted truecolor value, and it
always fits in 16 bits. -/
lemma argb4_group_cases (fld sent B : Nat) (hge : 0x40 ≤ fld)
    (hBdef : B = if fld < (0x10 ||| 0x40) then ansitab16.getD (fld ^^^ 0x40) 0
      else if fld = (CUCUL_DEFAULT ||| 0x40) then ansitab16.getD sent 0
      else if fld = (CUCUL_TRANSPARENT ||| 0x40) then 0x0fff
      else ((fld <<< 2) &&& 0xf000) ||| ((fld <<< 1) &&& 0x0fff)) :
    B < 0x10000 ∧
    (fld < 0x50 → B = ansitab16.getD (fld - 0x40) 0) ∧
    (fld = 0x50 → B = ansitab16.getD sent 0) ∧
    (fld = 0x60 → B = 0x0fff) ∧
    (0x50 < fld → fld ≠ 0x60 →
      B = ((fld <<< 2) &&& 0xf000) ||| ((fld <<< 1) &&& 0x0fff)) := by
  have h50 : ((0x10 : Nat) ||| 0x40) = 0x50 := rfl
  have hd : (CUCUL_DEFAULT ||| (0x40 : Nat)) = 0x50 := rfl
  have ht : (CUCUL_TRANSPARENT ||| (0x40 : Nat)) = 0x60 := rfl
  subst hBdef
  rw [h50, hd, ht]
  refine ⟨?_, ?_, ?_, ?_, ?_⟩
  · split_ifs with h1 h2 h3
    · exact ansitab16_getD_lt _
    · exact ansitab16_getD_lt _
    · norm_num
    · have hx : ((fld <<< 2) &&& 0xf000) < 2 ^ 16 :=
        lt_of_le_of_lt Nat.and_le_right (by norm_num)
      have hy : ((fld <<< 1) &&& 0x0fff) < 2 ^ 16 :=
        lt_of_le_of_lt Nat.and_le_right (by norm_num)
      have := Nat.or_lt_two_pow hx hy
      simpa using this
  · intro h
    rw [if_pos h]
    rcases xor_sub_0x40 fld h with hc | hc
    · omega
    · rw [hc]
  · intro h
    rw [if_neg (by omega), if_pos h]
  · intro h
    rw [if_neg (by omega), if_neg (by omega), if_pos h]
  · intro h1 h2
    rw [if_neg (by omega), if_neg (by omega), if_neg (by omega)]

/-- C8 (amended): for every 32-bit attribute whose 14-bit fields carry
the fixed 0x40 offset (as every attribute built by the colour setters
does), `_cucul_attr_to_argb4` emits eight nibbles — background group in
positions 0..3, then foreground group in positions 4..7, each group
most-significant nibble first (the group value is
`n0*4096 + n1*256 + n2*16 + n3`). Raw palette fields resolve through
`ansitab16`; a default-sentinel field resolves to the palette's black
(background) or light gray (foreground); a transparent-sentinel field
resolves to 0x0fff (alpha 0); any other field is up-converted truecolor
`((v << 2) & 0xf000) | ((v << 1) & 0x0fff)`. -/
theorem c8_amended_argb4_layout (attr : Nat) (h32 : attr < 0x100000000)
    (hbg : 0x40 ≤ attr >>> 18) (hfg : 0x40 ≤ (attr >>> 4) &&& 0x3fff) :
    (_cucul_attr_to_argb4 attr).length = 8 ∧
    (∀ i < 8, (_cucul_attr_to_argb4 attr).getD i 0 < 16) ∧
    (attr >>> 18 < 0x50 →
      (_cucul_attr_to_argb4 attr).getD 0 0 * 4096 + (_cucul_attr_to_argb4 attr).getD 1 0 * 256 +
        (_cucul_attr_to_argb4 attr).getD 2 0 * 16 + (_cucul_attr_to_argb4 attr).getD 3 0 =
      ansitab16.getD ((attr >>> 18) - 0x40) 0) ∧
    (attr >>> 18 = (CUCUL_DEFAULT ||| 0x40) →
      (_cucul_attr_to_argb4 attr).getD 0 0 * 4096 + (_cucul_attr_to_argb4 attr).getD 1 0 * 256 +
        (_cucul_attr_to_argb4 attr).getD 2 0 * 16 + (_cucul_attr_to_argb4 attr).getD 3 0 =
      ansitab16.getD CUCUL_BLACK 0) ∧
    (attr >>> 18 = (CUCUL_TRANSPARENT ||| 0x40) →
      (_cucul_attr_to_argb4 attr).getD 0 0 * 4096 + (_cucul_attr_to_argb4 attr).getD 1 0 * 256 +
        (_cucul_attr_to_argb4 attr).getD 2 0 * 16 + (_cucul_attr_to_argb4 attr).getD 3 0 =
      0x0fff) ∧
    (0x50 < attr >>> 18 → attr >>> 18 ≠ 0x60 →
      (_cucul_attr_to_argb4 attr).getD 0 0 * 4096 + (_cucul_attr_to_argb4 attr).getD 1 0 * 256 +
        (_cucul_attr_to_argb4 attr).getD 2 0 * 16 + (_cucul_attr_to_argb4 attr).getD 3 0 =
      (((attr >>> 18) <<< 2) &&& 0xf000) ||| (((attr >>> 18) <<< 1) &&& 0x0fff)) ∧
    ((attr >>> 4) &&& 0x3fff < 0x50 →
      (_cucul_attr_to_argb4 attr).getD 4 0 * 4096 + (_cucul_attr_to_argb4 attr).getD 5 0 * 256 +
        (_cucul_attr_to_argb4 attr).getD 6 0 * 16 + (_cucul_attr_to_argb4 attr).getD 7 0 =
      ansitab16.getD (((attr >>> 4) &&& 0x3fff) - 0x40) 0) ∧
    ((attr >>> 4) &&& 0x3fff = (CUCUL_DEFAULT ||| 0x40) →
      (_cucul_attr_to_argb4 attr).getD 4 0 * 4096 + (_cucul_attr_to_argb4 attr).getD 5 0 * 256 +
        (_cucul_attr_to_argb4 attr).getD 6 0 * 16 + (_cucul_attr_to_argb4 attr).getD 7 0 =
      ansitab16.getD CUCUL_LIGHTGRAY 0) ∧
    ((attr >>> 4) &&& 0x3fff = (CUCUL_TRANSPARENT ||| 0x40) →
      (_cucul_attr_to_argb4 attr).getD 4 0 * 4096 + (_cucul_attr_to_argb4 attr).getD 5 0 * 256 +
        (_cucul_attr_to_argb4 attr).getD 6 0 * 16 + (_cucul_attr_to_argb4 attr).getD 7 0 =
      0x0fff) ∧
    (0x50 < (attr >>> 4) &&& 0x3fff → (attr >>> 4) &&& 0x3fff ≠ 0x60 →
      (_cucul_attr_to_argb4 attr).getD 4 0 * 4096 + (_cucul_attr_to_argb4 attr).getD 5 0 * 256 +
        (_cucul_attr_to_argb4 attr).getD 6 0 * 16 + (_cucul_attr_to_argb4 attr).getD 7 0 =
      (((attr >>> 4) &&& 0x3fff) <<< 2) &&& 0xf000 |||
        ((((attr >>> 4) &&& 0x3fff) <<< 1) &&& 0x0fff)) := by
  obtain ⟨B, hBdef⟩ : ∃ t : Nat,
      t = (if attr >>> 18 < (0x10 ||| 0x40) then ansitab16.getD ((attr >>> 18) ^^^ 0x40) 0
        else if attr >>> 18 = (CUCUL_DEFAULT ||| 0x40) then ansitab16.getD CUCUL_BLACK 0
        else if attr >>> 18 = (CUCUL_TRANSPARENT ||| 0x40) then 0x0fff
        else (((attr >>> 18) <<< 2) &&& 0xf000) ||| (((attr >>> 18) <<< 1) &&& 0x0fff)) :=
    ⟨_, rfl⟩
  obtain ⟨F, hFdef⟩ : ∃ t : Nat,
      t = (if (attr >>> 4) &&& 0x3fff < (0x10 ||| 0x40) then
          ansitab16.getD (((attr >>> 4) &&& 0x3fff) ^^^ 0x40) 0
        else if (attr >>> 4) &&& 0x3fff = (CUCUL_DEFAULT ||| 0x40) then
          ansitab16.getD CUCUL_LIGHTGRAY 0
        else if (attr >>> 4) &&& 0x3fff = (CUCUL_TRANSPARENT ||| 0x40) then 0x0fff
        else ((((attr >>> 4) &&& 0x3fff) <<< 2) &&& 0xf000) |||
          ((((attr >>> 4) &&& 0x3fff) <<< 1) &&& 0x0fff)) :=
    ⟨_, rfl⟩
  have hout : _cucul_attr_to_argb4 attr =
      [B >>> 12, (B >>> 8) &&& 0xf, (B >>> 4) &&& 0xf, B &&& 0xf,
       F >>> 12, (F >>> 8) &&& 0xf, (F >>> 4) &&& 0xf, F &&& 0xf] := by
    rw [hBdef, hFdef]
    simp only [_cucul_attr_to_argb4, Nat.mod_eq_of_lt h32]
  obtain ⟨hBlt, hBr, hBd, hBt, hBtc⟩ := argb4_group_cases (attr >>> 18) CUCUL_BLACK B hbg hBdef
  obtain ⟨hFlt, hFr, hFd, hFt, hFtc⟩ :=
    argb4_group_cases ((attr >>> 4) &&& 0x3fff) CUCUL_LIGHTGRAY F hfg hFdef
  obtain ⟨hBsum, hB0, hB1, hB2, hB3⟩ := nibble_decomp B hBlt
  obtain ⟨hFsum, hF0, hF1, hF2, hF3⟩ := nibble_decomp F hFlt
  rw [hout]
  refine ⟨rfl, ?_, ?_, ?_, ?_, ?_, ?_, ?_, ?_, ?_⟩
  · intro i hi
    interval_cases i
    exacts [hB0, hB1, hB2, hB3, hF0, hF1, hF2, hF3]
  · intro hcond
    show (B >>> 12) * 4096 + ((B >>> 8) &&& 0xf) * 256 + ((B >>> 4) &&& 0xf) * 16 + (B &&& 0xf) = _
    rw [hBsum]
    exact hBr hcond
  · intro hcond
    show (B >>> 12) * 4096 + ((B >>> 8) &&& 0xf) * 256 + ((B >>> 4) &&& 0xf) * 16 + (B &&& 0xf) = _
    rw [hBsum]
    exact hBd hcond
  · intro hcond
    show (B >>> 12) * 4096 + ((B >>> 8) &&& 0xf) * 256 + ((B >>> 4) &&& 0xf) * 16 + (B &&& 0xf) = _
    rw [hBsum]
    exact hBt hcond
  · intro h1 h2
    show (B >>> 12) * 4096 + ((B >>> 8) &&& 0xf) * 256 + ((B >>> 4) &&& 0xf) * 16 + (B &&& 0xf) = _
    rw [hBsum]
    exact hBtc h1 h2
  · intro hcond
    show (F >>> 12) * 4096 + ((F >>> 8) &&& 0xf) * 256 + ((F >>> 4) &&& 0xf) * 16 + (F &&& 0xf) = _
    rw [hFsum]
    exact hFr hcond
  · intro hcond
    show (F >>> 12) * 4096 + ((F >>> 8) &&& 0xf) * 256 + ((F >>> 4) &&& 0xf) * 16 + (F &&& 0xf) = _
    rw [hFsum]
    exact hFd hcond
  · intro hcond
    show (F >>> 12) * 4096 + ((F >>> 8) &&& 0xf) * 256 + ((F >>> 4) &&& 0xf) * 16 + (F &&& 0xf) = _
    rw [hFsum]
    exact hFt hcond
  · intro h1 h2
    show (F >>> 12) * 4096 + ((F >>> 8) &&& 0xf) * 256 + ((F >>> 4) &&& 0xf) * 16 + (F &&& 0xf) = _
    rw [hFsum]
    exact hFtc h1 h2

/-- Witness for the amended C8 at attr = 0x1000600: background raw
black, foreground transparent. -/
theorem c8_amended_argb4_layout_witness :
    (_cucul_attr_to_argb4 (0x1000600 : Nat)).length = 8 ∧
    (∀ i < 8, (_cucul_attr_to_argb4 (0x1000600 : Nat)).getD i 0 < 16) ∧
    ((0x1000600 : Nat) >>> 18 < 0x50 →
      (_cucul_attr_to_argb4 (0x1000600 : Nat)).getD 0 0 * 4096 + (_cucul_attr_to_argb4 (0x1000600 : Nat)).getD 1 0 * 256 +
        (_cucul_attr_to_argb4 (0x1000600 : Nat)).getD 2 0 * 16 + (_cucul_attr_to_argb4 (0x1000600 : Nat)).getD 3 0 =
      ansitab16.getD (((0x1000600 : Nat) >>> 18) - 0x40) 0) ∧
    ((0x1000600 : Nat) >>> 18 = (CUCUL_DEFAULT ||| 0x40) →
      (_cucul_attr_to_argb4 (0x1000600 : Nat)).getD 0 0 * 4096 + (_cucul_attr_to_argb4 (0x1000600 : Nat)).getD 1 0 * 256 +
        (_cucul_attr_to_argb4 (0x1000600 : Nat)).getD 2 0 * 16 + (_cucul_attr_to_argb4 (0x1000600 : Nat)).getD 3 0 =
      ansitab16.getD CUCUL_BLACK 0) ∧
    ((0x1000600 : Nat) >>> 18 = (CUCUL_TRANSPARENT ||| 0x40) →
      (_cucul_attr_to_argb4 (0x1000600 : Nat)).getD 0 0 * 4096 + (_cucul_attr_to_argb4 (0x1000600 : Nat)).getD 1 0 * 256 +
        (_cucul_attr_to_argb4 (0x1000600 : Nat)).getD 2 0 * 16 + (_cucul_attr_to_argb4 (0x1000600 : Nat)).getD 3 0 =
      0x0fff) ∧
    (0x50 < (0x1000600 : Nat) >>> 18 → (0x1000600 : Nat) >>> 18 ≠ 0x60 →
      (_cucul_attr_to_argb4 (0x1000600 : Nat)).getD 0 0 * 4096 + (_cucul_attr_to_argb4 (0x1000600 : Nat)).getD 1 0 * 256 +
        (_cucul_attr_to_argb4 (0x1000600 : Nat)).getD 2 0 * 16 + (_cucul_attr_to_argb4 (0x1000600 : Nat)).getD 3 0 =
      ((((0x1000600 : Nat) >>> 18) <<< 2) &&& 0xf000) ||| ((((0x1000600 : Nat) >>> 18) <<< 1) &&& 0x0fff)) ∧
    (((0x1000600 : Nat) >>> 4) &&& 0x3fff < 0x50 →
      (_cucul_attr_to_argb4 (0x1000600 : Nat)).getD 4 0 * 4096 + (_cucul_attr_to_argb4 (0x1000600 : Nat)).getD 5 0 * 256 +
        (_cucul_attr_to_argb4 (0x1000600 : Nat)).getD 6 0 * 16 + (_cucul_attr_to_argb4 (0x1000600 : Nat)).getD 7 0 =
      ansitab16.getD ((((0x1000600 : Nat) >>> 4) &&& 0x3fff) - 0x40) 0) ∧
    (((0x1000600 : Nat) >>> 4) &&& 0x3fff = (CUCUL_DEFAULT ||| 0x40) →
      (_cucul_attr_to_argb4 (0x1000600 : Nat)).getD 4 0 * 4096 + (_cucul_attr_to_argb4 (0x1000600 : Nat)).getD 5 0 * 256 +
        (_cucul_attr_to_argb4 (0x1000600 : Nat)).getD 6 0 * 16 + (_cucul_attr_to_argb4 (0x1000600 : Nat)).getD 7 0 =
      ansitab16.getD CUCUL_LIGHTGRAY 0) ∧
    (((0x1000600 : Nat) >>> 4) &&& 0x3fff = (CUCUL_TRANSPARENT ||| 0x40) →
      (_cucul_attr_to_argb4 (0x1000600 : Nat)).getD 4 0 * 4096 + (_cucul_attr_to_argb4 (0x1000600 : Nat)).getD 5 0 * 256 +
        (_cucul_attr_to_argb4 (0x1000600 : Nat)).getD 6 0 * 16 + (_cucul_attr_to_argb4 (0x1000600 : Nat)).getD 7 0 =
      0x0fff) ∧
    (0x50 < ((0x1000600 : Nat) >>> 4) &&& 0x3fff → ((0x1000600 : Nat) >>> 4) &&& 0x3fff ≠ 0x60 →
      (_cucul_attr_to_argb4 (0x1000600 : Nat)).getD 4 0 * 4096 + (_cucul_attr_to_argb4 (0x1000600 : Nat)).getD 5 0 * 256 +
        (_cucul_attr_to_argb4 (0x1000600 : Nat)).getD 6 0 * 16 + (_cucul_attr_to_argb4 (0x1000600 : Nat)).getD 7 0 =
      ((((0x1000600 : Nat) >>> 4) &&& 0x3fff) <<< 2) &&& 0xf000 |||
        (((((0x1000600 : Nat) >>> 4) &&& 0x3fff) <<< 1) &&& 0x0fff)) :=
  c8_amended_argb4_layout 0x1000600 (by decide) (by decide) (by decide)
